import Mathlib

/-!
Verification development for the provider-scraping pipeline in
`scrape_providers.py`: the value normalizer `clean_and_convert_values`,
the snapshot builder `scrape_providers`, the change detector
`providers_changed`, and the update driver `update_models_with_providers`.

Python strings are modelled over `List Char`; every string operation the
source uses (`strip`, `replace`, `lower`, `int()`, `float()`) is given an
executable structural definition below.  Python `float` parsing is
modelled as exact decimal-literal parsing into `Rat` (optional sign,
digits, optional fractional part); exotic float syntax (exponents,
`inf`/`nan`) is outside the inputs the pipeline and the specification
exercise.
-/

set_option autoImplicit false
set_option maxRecDepth 100000

namespace ScrapeProviders

/-- The drop-leading-whitespace half of Python `str.strip`. -/
def dropWS : List Char → List Char
  | [] => []
  | c :: r => if c.isWhitespace then dropWS r else c :: r

/-- Model of Python `str.strip()`: remove whitespace from both ends. -/
def pyStrip (l : List Char) : List Char :=
  ((dropWS l.reverse).reverse |> dropWS)

/-- Numeric value of a digit string, most significant digit first. -/
def natOfDigits (l : List Char) : Nat :=
  l.foldl (fun a c => 10 * a + (c.toNat - '0'.toNat)) 0

/-- Parse a non-empty all-digit string as a natural number. -/
def parseNat? (l : List Char) : Option Nat :=
  if l.isEmpty then Option.none
  else if l.all Char.isDigit then Option.some (natOfDigits l)
  else Option.none

/-- Model of Python `int(s)` on a stripped string: optional sign, then digits. -/
def pyInt? : List Char → Option Int
  | '-' :: rest => (parseNat? rest).map (fun n => -(n : Int))
  | '+' :: rest => (parseNat? rest).map (fun n => (n : Int))
  | l => (parseNat? l).map (fun n => (n : Int))

/-- Split a character list at every occurrence of the dot character. -/
def splitOnDot : List Char → List (List Char)
  | [] => [[]]
  | c :: r =>
    if c = '.' then [] :: splitOnDot r
    else
      match splitOnDot r with
      | [] => [[c]]
      | h :: t => (c :: h) :: t

/-- Unsigned part of Python `float(s)`: digits, optionally split by one dot
(at least one digit overall), returned as a numerator together with its
power-of-ten denominator. -/
def pyFloatMag? (l : List Char) : Option (Nat × Nat) :=
  match splitOnDot l with
  | [ip] => (parseNat? ip).map (fun n => (n, 1))
  | [ip, fp] =>
    if ip.isEmpty && fp.isEmpty then Option.none
    else if ip.all Char.isDigit && fp.all Char.isDigit then
      Option.some (natOfDigits ip * 10 ^ fp.length + natOfDigits fp, 10 ^ fp.length)
    else Option.none
  | _ => Option.none

/-- Model of Python `float(s)` on a stripped string: optional sign, then a
decimal literal, valued exactly in `Rat`; parse failure is `none` (Python
raises `ValueError`). -/
def pyFloat? : List Char → Option Rat
  | '-' :: rest => (pyFloatMag? rest).map (fun p => mkRat (-(p.1 : Int)) p.2)
  | '+' :: rest => (pyFloatMag? rest).map (fun p => mkRat (p.1 : Int) p.2)
  | l => (pyFloatMag? l).map (fun p => mkRat (p.1 : Int) p.2)

/-- Fueled worker for `replaceAllC`; one unit of fuel is spent per character
consumed, so fuel equal to the input length always suffices. -/
def replaceAllF : Nat → List Char → List Char → List Char → List Char
  | 0, _, _, l => l
  | _ + 1, _, _, [] => []
  | fuel + 1, pat, repl, c :: rest =>
    if !pat.isEmpty && pat.isPrefixOf (c :: rest) then
      repl ++ replaceAllF fuel pat repl ((c :: rest).drop pat.length)
    else
      c :: replaceAllF fuel pat repl rest

/-- Model of Python `str.replace(pat, repl)`: replace every non-overlapping
occurrence of `pat`, scanning left to right. -/
def replaceAllC (l pat repl : List Char) : List Char :=
  replaceAllF l.length pat repl l

/-- A value as stored in a provider record: Python `None`, a string, an
`int`, or a `float` (modelled exactly as `Rat`). -/
inductive Value where
  | none : Value
  | str : String → Value
  | int : Int → Value
  | float : Rat → Value
deriving DecidableEq

/-- The `data_type` argument of `clean_and_convert_values`. -/
inductive DataType where
  | str
  | int
  | float
  | latency
  | throughput
deriving DecidableEq

/-- Embedding of `clean_and_convert_values(value, data_type)` from
`scrape_providers.py`: `None` passes through; otherwise the input is
stripped, cleaned per kind (commas removed and a `K` expanded to `000` for
`int`/`float`, a `$` also removed for `float`, every `s` removed for
`latency`, every `t/s` removed for `throughput`) and parsed; a parse
failure yields `Value.none`, never an error. -/
def clean_and_convert_values (value : Option String) (data_type : DataType) : Value :=
  match value with
  | Option.none => Value.none
  | Option.some v0 =>
    let v := pyStrip v0.data
    match data_type with
    | DataType.str => Value.str ⟨v⟩
    | DataType.int =>
      let v := replaceAllC (replaceAllC v [','] []) ['K'] ['0', '0', '0']
      match pyInt? v with
      | Option.some n => Value.int n
      | Option.none => Value.none
    | DataType.float =>
      let v := replaceAllC (replaceAllC (replaceAllC v [','] []) ['$'] []) ['K'] ['0', '0', '0']
      match pyFloat? v with
      | Option.some q => Value.float q
      | Option.none => Value.none
    | DataType.latency =>
      let v := replaceAllC v ['s'] []
      match pyFloat? v with
      | Option.some q => Value.float q
      | Option.none => Value.none
    | DataType.throughput =>
      let v := replaceAllC v ['t', '/', 's'] []
      match pyFloat? v with
      | Option.some q => Value.float q
      | Option.none => Value.none

example : clean_and_convert_values (Option.some "1,234K") DataType.int = Value.int 1234000 := by decide
example : clean_and_convert_values (Option.some "$0.50") DataType.float = Value.float (mkRat 50 100) := by decide
example : clean_and_convert_values (Option.some "2.3s") DataType.latency = Value.float (mkRat 23 10) := by decide
example : clean_and_convert_values (Option.some "45.1t/s") DataType.throughput = Value.float (mkRat 451 10) := by decide
example : clean_and_convert_values (Option.some "abc") DataType.int = Value.none := by decide
example : clean_and_convert_values (Option.some "1s2") DataType.latency = Value.float (mkRat 12 1) := by decide
example : (mkRat 50 100 : Rat) = (0.50 : Rat) := by norm_num [Rat.mkRat_eq_div]

/-- The metric dictionary of a provider record, with the six fixed keys the
scraper writes (positions 0 to 5 of a provider row).  Each key carries a
`Value` exactly as `clean_and_convert_values` produced it. -/
structure Metrics where
  context_length : Value
  max_output_tokens : Value
  input_price_per_million : Value
  output_price_per_million : Value
  latency_seconds : Value
  throughput_tokens_per_second : Value
deriving DecidableEq

/-- A provider record: a name (Python `None` for the sentinel record) and
its metric dictionary. -/
structure Provider where
  name : Option String
  metrics : Metrics
deriving DecidableEq

/-- The sentinel record returned when no per-provider breakdown exists:
`name` is `None` and all six metrics are `None`. -/
def sentinelProvider : Provider :=
  { name := Option.none,
    metrics :=
      { context_length := Value.none,
        max_output_tokens := Value.none,
        input_price_per_million := Value.none,
        output_price_per_million := Value.none,
        latency_seconds := Value.none,
        throughput_tokens_per_second := Value.none } }

/-- Key-by-key comparison of the two metric dictionaries in
`providers_changed` (the `for key in new_metrics` loop): true when any of
the six keys holds different values. -/
def metrics_changed (existing_metrics new_metrics : Metrics) : Bool :=
  (new_metrics.context_length != existing_metrics.context_length) ||
  (new_metrics.max_output_tokens != existing_metrics.max_output_tokens) ||
  (new_metrics.input_price_per_million != existing_metrics.input_price_per_million) ||
  (new_metrics.output_price_per_million != existing_metrics.output_price_per_million) ||
  (new_metrics.latency_seconds != existing_metrics.latency_seconds) ||
  (new_metrics.throughput_tokens_per_second != existing_metrics.throughput_tokens_per_second)

/-- Body of one iteration of the index loop in `providers_changed`: the
name comparison, then the metric comparison. -/
def provider_changed_at (existing new : Provider) : Bool :=
  (new.name != existing.name) || metrics_changed existing.metrics new.metrics

/-- The index loop of `providers_changed`: iterate over the new snapshot,
fetching the existing record at the same index; a new index beyond the end
of the existing snapshot reports a change (unreachable after the length
guard, kept as in the source). -/
def providers_changed_loop : List Provider → List Provider → Bool
  | _, [] => false
  | [], _ :: _ => true
  | e :: es, n :: ns => provider_changed_at e n || providers_changed_loop es ns

/-- Embedding of `providers_changed(existing_providers, new_providers,
model_id)` from `scrape_providers.py` (the `model_id` argument only feeds
log messages and is dropped): a length mismatch is a change, otherwise the
records are compared positionally, short-circuiting on the first
divergence. -/
def providers_changed (existing_providers new_providers : List Provider) : Bool :=
  if existing_providers.length != new_providers.length then true
  else providers_changed_loop existing_providers new_providers

/-- The raw data of one provider row as the page exposes it to the row
loop of `scrape_providers`: the text of the name element (`none` when the
row has no name element), the texts of the `div.text-lg` metric fields,
and whether extracting the row raises. -/
structure RawRow where
  name : Option String
  fields : List String
  extract_fails : Bool
deriving DecidableEq

/-- The body of the row loop of `scrape_providers`: a raised extraction
error, a missing name element, or fewer than six metric fields skip the
row; otherwise the provider record is built, the name lower-cased with
spaces replaced by underscores and the six metric texts normalized
positionally. -/
def processRow (r : RawRow) : Option Provider :=
  if r.extract_fails then Option.none
  else
    match r.name with
    | Option.none => Option.none
    | Option.some nm =>
      match r.fields with
      | m0 :: m1 :: m2 :: m3 :: m4 :: m5 :: _ =>
        Option.some
          { name := Option.some ⟨replaceAllC (nm.data.map Char.toLower) [' '] ['_']⟩,
            metrics :=
              { context_length := clean_and_convert_values (Option.some m0) DataType.int,
                max_output_tokens := clean_and_convert_values (Option.some m1) DataType.int,
                input_price_per_million := clean_and_convert_values (Option.some m2) DataType.float,
                output_price_per_million := clean_and_convert_values (Option.some m3) DataType.float,
                latency_seconds := clean_and_convert_values (Option.some m4) DataType.latency,
                throughput_tokens_per_second := clean_and_convert_values (Option.some m5) DataType.throughput } }
      | _ => Option.none

/-- What the page presents to `scrape_providers` for one model: no
Providers tab, a tab whose provider section never becomes visible, or a
(possibly empty) list of provider rows. -/
inductive PageOutcome where
  | noProvidersTab
  | noProviderSection
  | rows (rs : List RawRow)

/-- Embedding of `scrape_providers(model_url)` from `scrape_providers.py`:
a missing tab, a missing provider section, or zero rows yield the
single-element sentinel snapshot; otherwise the rows are processed in
order and the successfully extracted records collected. -/
def scrape_providers : PageOutcome → List Provider
  | PageOutcome.noProvidersTab => [sentinelProvider]
  | PageOutcome.noProviderSection => [sentinelProvider]
  | PageOutcome.rows rs =>
    if rs.length = 0 then [sentinelProvider]
    else rs.filterMap processRow

example : providers_changed [] [sentinelProvider] = true := by decide
example : providers_changed [sentinelProvider] [sentinelProvider] = false := by decide
example : scrape_providers (PageOutcome.rows [⟨Option.none, [], false⟩]) = [] := by decide
example : scrape_providers (PageOutcome.rows []) = [sentinelProvider] := by decide

/-- One entry of the `data` array of `models.json`: its `id`, its
`providers` key (`none` when the key is absent; `model.get("providers",
[])` then defaults to the empty snapshot), and every other key of the
JSON object, carried verbatim. -/
structure ModelEntry where
  id : String
  providers : Option (List Provider)
  extra : List (String × String)
deriving DecidableEq

/-- The catalog: the `data` array of `models.json`. -/
structure Catalog where
  data : List ModelEntry
deriving DecidableEq

/-- The external effects one run of the driver observes, positionally per
catalog entry: the snapshot `scrape_providers` returns for a model id
(`none` when the scrape raises), and whether the `json.dump` rewrite of
`models.json` attempted while processing entry `i` succeeds. -/
structure Oracle where
  scrape : String → Option (List Provider)
  commitOk : Nat → Bool

/-- The observable log line the driver prints for one entry. -/
inductive LogEvent where
  | scrapeError (id : String)
  | saved (id : String)
  | saveError (id : String)
  | noChange (id : String)
deriving DecidableEq

/-- The per-model body of `update_models_with_providers`: scrape (a raised
error is caught, logged and skips the entry), detect a change against
`model.get("providers", [])`, on a change assign the new snapshot to the
in-memory entry and attempt the save, logging a save failure without
rolling the assignment back. -/
def processEntry (o : Oracle) (i : Nat) (entry : ModelEntry) : ModelEntry × LogEvent :=
  match o.scrape entry.id with
  | Option.none => (entry, LogEvent.scrapeError entry.id)
  | Option.some newProviders =>
    if providers_changed (entry.providers.getD []) newProviders then
      let entry' := { entry with providers := Option.some newProviders }
      if o.commitOk i then (entry', LogEvent.saved entry.id)
      else (entry', LogEvent.saveError entry.id)
    else (entry, LogEvent.noChange entry.id)

/-- The driver loop over the catalog entries, in order, `i` being the
position of the first remaining entry. -/
def runEntries (o : Oracle) : Nat → List ModelEntry → List (ModelEntry × LogEvent)
  | _, [] => []
  | i, e :: rest => processEntry o i e :: runEntries o (i + 1) rest

/-- The outcome of one run of `update_models_with_providers`: the process
exit code, the final in-memory catalog (`none` when the run aborted
before producing one), and the per-entry log. -/
structure RunResult where
  exitCode : Nat
  final : Option Catalog
  log : List LogEvent
deriving DecidableEq

/-- Embedding of `update_models_with_providers` from
`scrape_providers.py`.  `loadResult` is the outcome of reading and
parsing `models.json` into the expected structure: `none` (the file is
missing or unparseable) makes the surrounding handler call
`sys.exit(1)` before any model is processed; otherwise every entry is
processed in order and the run finishes with exit status `0`. -/
def update_models_with_providers (loadResult : Option Catalog) (o : Oracle) : RunResult :=
  match loadResult with
  | Option.none => { exitCode := 1, final := Option.none, log := [] }
  | Option.some c =>
    let steps := runEntries o 0 c.data
    { exitCode := 0,
      final := Option.some ⟨steps.map Prod.fst⟩,
      log := steps.map Prod.snd }

/-- Everything of a catalog entry except its `providers` key. -/
def entryShape (e : ModelEntry) : String × List (String × String) :=
  (e.id, e.extra)

/-- Models the on-disk content of `models.json` produced by the source's
commit, `open("models.json", "w")` followed by `json.dump(...)`, when the
process fails after `written` characters of the new serialization reached
the disk: opening with mode `w` truncates the previous content
immediately, so nothing of `oldContent` survives the attempt. -/
def commit_disk_content (oldContent newContent : String) (written : Nat) : String :=
  let _ := oldContent
  ⟨newContent.data.take written⟩

/-- Modelled from the spec (section 4.1 of the specification words for
the latency kind): strip a trailing unit suffix denoting seconds — only
at the end of the string, characters elsewhere untouched — then parse the
remainder as a decimal, failure yielding absent. -/
def normalize_latency_trailing (value : Option String) : Value :=
  match value with
  | Option.none => Value.none
  | Option.some v0 =>
    let v := pyStrip v0.data
    let v := if ['s'].isSuffixOf v then v.take (v.length - 1) else v
    match pyFloat? v with
    | Option.some q => Value.float q
    | Option.none => Value.none

/-- Modelled from the spec (section 4.1 of the specification words for
the throughput kind): strip a trailing unit suffix denoting
tokens-per-second — only at the end of the string — then parse the
remainder as a decimal, failure yielding absent. -/
def normalize_throughput_trailing (value : Option String) : Value :=
  match value with
  | Option.none => Value.none
  | Option.some v0 =>
    let v := pyStrip v0.data
    let v := if ['t', '/', 's'].isSuffixOf v then v.take (v.length - 3) else v
    match pyFloat? v with
    | Option.some q => Value.float q
    | Option.none => Value.none

/-- The amended latency behavior: every occurrence of the character `s`
anywhere in the stripped string is removed — not only a trailing unit
suffix — and the remainder is parsed as a decimal, failure yielding
absent. -/
def normalize_latency_amended (value : Option String) : Value :=
  match value with
  | Option.none => Value.none
  | Option.some v0 =>
    match pyFloat? (replaceAllC (pyStrip v0.data) ['s'] []) with
    | Option.some q => Value.float q
    | Option.none => Value.none

/-- The amended throughput behavior: every occurrence of the substring
`t/s` anywhere in the stripped string is removed — not only a trailing
unit suffix — and the remainder is parsed as a decimal, failure yielding
absent. -/
def normalize_throughput_amended (value : Option String) : Value :=
  match value with
  | Option.none => Value.none
  | Option.some v0 =>
    match pyFloat? (replaceAllC (pyStrip v0.data) ['t', '/', 's'] []) with
    | Option.some q => Value.float q
    | Option.none => Value.none

/-- The per-record comparison of the change detector is exact equality of
the record. -/
theorem provider_changed_at_eq_false_iff (e n : Provider) :
    provider_changed_at e n = false ↔ e = n := by
  cases e with
  | mk en em =>
    cases n with
    | mk nn nm =>
      cases em
      cases nm
      simp only [provider_changed_at, metrics_changed, Bool.or_eq_false_iff,
        bne_eq_false_iff_eq, Provider.mk.injEq, Metrics.mk.injEq]
      tauto

/-- On equal-length snapshots, the index loop of the change detector
reports no change exactly when the snapshots are equal. -/
theorem providers_changed_loop_eq_false_iff (es ns : List Provider)
    (h : es.length = ns.length) :
    providers_changed_loop es ns = false ↔ es = ns := by
  induction es generalizing ns with
  | nil =>
    cases ns with
    | nil => simp [providers_changed_loop]
    | cons n ns => simp at h
  | cons e es ih =>
    cases ns with
    | nil => simp at h
    | cons n ns =>
      simp only [providers_changed_loop, Bool.or_eq_false_iff]
      rw [provider_changed_at_eq_false_iff, ih ns (by simpa using h)]
      simp

/-- C5: for every provider snapshot `S`, the change detector applied to
`S` against itself returns false. -/
theorem providers_changed_self_false (S : List Provider) :
    providers_changed S S = false := by
  unfold providers_changed
  rw [bne_self_eq_false]
  simpa using (providers_changed_loop_eq_false_iff S S rfl).mpr rfl

/-- C6: snapshots of different lengths are always reported changed; in
particular the empty existing snapshot against the single-element
sentinel snapshot is reported changed. -/
theorem providers_changed_of_length_ne :
    (∀ S1 S2 : List Provider, S1.length ≠ S2.length →
      providers_changed S1 S2 = true)
    ∧ providers_changed [] [sentinelProvider] = true := by
  constructor
  · intro S1 S2 h
    unfold providers_changed
    rw [if_pos]
    exact (bne_iff_ne ..).mpr h
  · decide

/-- Witness for C6 at a concrete input: length 1 against length 0. -/
theorem providers_changed_of_length_ne_witness :
    providers_changed [sentinelProvider] [] = true :=
  providers_changed_of_length_ne.1 [sentinelProvider] [] (by decide)

/-- C7: two snapshots holding the same records as a multiset but in a
different positional order are reported changed — comparison is
positional, not set-keyed. -/
theorem providers_changed_of_perm_ne (S1 S2 : List Provider)
    (hperm : S1.Perm S2) (hne : S1 ≠ S2) :
    providers_changed S1 S2 = true := by
  cases hpc : providers_changed S1 S2 with
  | true => rfl
  | false =>
    exfalso
    apply hne
    have hlen := hperm.length_eq
    unfold providers_changed at hpc
    rw [if_neg] at hpc
    · exact (providers_changed_loop_eq_false_iff S1 S2 hlen).mp hpc
    · simp [bne_iff_ne, hlen]

/-- Witness for C7 at a concrete input: two distinct records swapped. -/
theorem providers_changed_of_perm_ne_witness :
    providers_changed
      [sentinelProvider, ⟨Option.some "x", sentinelProvider.metrics⟩]
      [⟨Option.some "x", sentinelProvider.metrics⟩, sentinelProvider] = true :=
  providers_changed_of_perm_ne _ _ (List.Perm.swap _ _ _) (by decide)

/-- C8: the normalizer maps "1,234K" to the integer 1234000, "$0.50" to
the decimal 0.50, "2.3s" to the latency 2.3, "45.1t/s" to the throughput
45.1, an absent input to absent for every kind, and the non-numeric "abc"
to absent rather than an error. -/
theorem clean_and_convert_values_spec_cases :
    clean_and_convert_values (Option.some "1,234K") DataType.int = Value.int 1234000
    ∧ clean_and_convert_values (Option.some "$0.50") DataType.float = Value.float (0.50 : Rat)
    ∧ clean_and_convert_values (Option.some "2.3s") DataType.latency = Value.float (2.3 : Rat)
    ∧ clean_and_convert_values (Option.some "45.1t/s") DataType.throughput = Value.float (45.1 : Rat)
    ∧ (∀ k : DataType, clean_and_convert_values Option.none k = Value.none)
    ∧ clean_and_convert_values (Option.some "abc") DataType.int = Value.none := by
  refine ⟨by decide, ?_, ?_, ?_, fun _ => rfl, by decide⟩
  · have h : (0.50 : Rat) = mkRat 50 100 := by norm_num [Rat.mkRat_eq_div]
    rw [h]; decide
  · have h : (2.3 : Rat) = mkRat 23 10 := by norm_num [Rat.mkRat_eq_div]
    rw [h]; decide
  · have h : (45.1 : Rat) = mkRat 451 10 := by norm_num [Rat.mkRat_eq_div]
    rw [h]; decide

/-- C9 counterexample: on "1s2" the latency kind yields the number 12 —
the inner `s` is removed, a character that is not a trailing suffix —
while the claimed trailing-only stripping leaves the non-numeric "1s2"
and must yield absent; likewise "4t/s5" for the throughput kind. -/
theorem clean_latency_throughput_not_trailing_only :
    clean_and_convert_values (Option.some "1s2") DataType.latency = Value.float (mkRat 12 1)
    ∧ normalize_latency_trailing (Option.some "1s2") = Value.none
    ∧ clean_and_convert_values (Option.some "4t/s5") DataType.throughput = Value.float (mkRat 45 1)
    ∧ normalize_throughput_trailing (Option.some "4t/s5") = Value.none :=
  ⟨by decide, by decide, by decide, by decide⟩

/-- C9 amended: for every input, the latency kind removes every
occurrence of the character `s` anywhere in the stripped string, the
throughput kind every occurrence of the substring `t/s`, and the
remainder is parsed as a decimal, yielding absent on parse failure. -/
theorem clean_latency_throughput_amended (value : Option String) :
    clean_and_convert_values value DataType.latency = normalize_latency_amended value
    ∧ clean_and_convert_values value DataType.throughput = normalize_throughput_amended value := by
  cases value <;> exact ⟨rfl, rfl⟩

/-- A row that raised, lacks its name element, or exposes fewer than six
metric fields contributes nothing to the snapshot. -/
theorem processRow_eq_none_of_skipped (r : RawRow)
    (h : r.extract_fails = true ∨ r.name = Option.none ∨ r.fields.length < 6) :
    processRow r = Option.none := by
  obtain ⟨nm, fs, ef⟩ := r
  simp only [processRow]
  rcases h with h1 | h2 | h3
  · simp only at h1
    simp [h1]
  · simp only at h2
    cases ef <;> simp [h2]
  · simp only at h3
    cases ef
    · cases nm with
      | none => simp
      | some nm =>
        rcases fs with _ | ⟨a, _ | ⟨b, _ | ⟨c, _ | ⟨d, _ | ⟨e, _ | ⟨f, rest⟩⟩⟩⟩⟩⟩ <;>
          simp_all
        omega
    · simp

/-- C10: when the page yields at least one provider row but every row is
skipped (its extraction raised, its name element is missing, or it
exposes fewer than six metric fields), the snapshot builder returns the
empty sequence, not the single-element sentinel snapshot. -/
theorem scrape_providers_all_rows_skipped (rs : List RawRow)
    (hne : rs ≠ [])
    (hskip : ∀ r ∈ rs,
      r.extract_fails = true ∨ r.name = Option.none ∨ r.fields.length < 6) :
    scrape_providers (PageOutcome.rows rs) = []
    ∧ scrape_providers (PageOutcome.rows rs) ≠ [sentinelProvider] := by
  have hmain : scrape_providers (PageOutcome.rows rs) = [] := by
    simp only [scrape_providers]
    rw [if_neg (by simpa [List.length_eq_zero] using hne), List.filterMap_eq_nil_iff]
    intro r hr
    exact processRow_eq_none_of_skipped r (hskip r hr)
  exact ⟨hmain, by rw [hmain]; simp⟩

/-- Witness for C10 at a concrete input: one row with no name element. -/
theorem scrape_providers_all_rows_skipped_witness :
    scrape_providers (PageOutcome.rows [⟨Option.none, [], false⟩]) = []
    ∧ scrape_providers (PageOutcome.rows [⟨Option.none, [], false⟩]) ≠ [sentinelProvider] :=
  scrape_providers_all_rows_skipped [⟨Option.none, [], false⟩] (by decide) (by decide)

/-- The driver loop produces one result pair per catalog entry. -/
theorem runEntries_length (o : Oracle) (i : Nat) (l : List ModelEntry) :
    (runEntries o i l).length = l.length := by
  induction l generalizing i with
  | nil => rfl
  | cons e rest ih => simp [runEntries, ih]

/-- The result pair at position `j` of the driver loop comes from the
catalog entry at position `j`. -/
theorem runEntries_get? (o : Oracle) (l : List ModelEntry) (i j : Nat) :
    (runEntries o i l)[j]? = l[j]?.map (fun e => processEntry o (i + j) e) := by
  induction l generalizing i j with
  | nil => simp [runEntries]
  | cons e rest ih =>
    cases j with
    | zero => simp [runEntries]
    | succ j =>
      have harith : i + 1 + j = i + (j + 1) := by omega
      simp [runEntries, ih (i + 1) j, harith]

/-- Processing one entry can only touch its `providers` key. -/
theorem entryShape_processEntry (o : Oracle) (i : Nat) (e : ModelEntry) :
    entryShape (processEntry o i e).1 = entryShape e := by
  unfold processEntry
  split
  · rfl
  · split
    · split <;> rfl
    · rfl

/-- The catalog produced by the driver loop has the same entries in the
same order, each identical outside its `providers` key. -/
theorem runEntries_map_fst_shape (o : Oracle) (i : Nat) (l : List ModelEntry) :
    ((runEntries o i l).map Prod.fst).map entryShape = l.map entryShape := by
  induction l generalizing i with
  | nil => rfl
  | cons e rest ih => simp [runEntries, entryShape_processEntry, ih]

/-- C1: a run exits non-zero exactly when the catalog cannot be loaded,
in which case nothing is processed; when the catalog loads, the run
completes over every entry with exit status zero, and a per-model scrape
failure or commit failure is logged for its entry while the driver
continues. -/
theorem update_exit_nonzero_iff_catalog_unreadable
    (loadResult : Option Catalog) (o : Oracle) :
    ((update_models_with_providers loadResult o).exitCode ≠ 0 ↔ loadResult = Option.none)
    ∧ (loadResult = Option.none →
        (update_models_with_providers loadResult o).log = []
        ∧ (update_models_with_providers loadResult o).final = Option.none)
    ∧ (∀ c, loadResult = Option.some c →
        (update_models_with_providers loadResult o).exitCode = 0
        ∧ (∃ c', (update_models_with_providers loadResult o).final = Option.some c'
            ∧ c'.data.length = c.data.length)
        ∧ (∀ i e, c.data[i]? = Option.some e →
            (o.scrape e.id = Option.none →
              (update_models_with_providers loadResult o).log[i]?
                = Option.some (LogEvent.scrapeError e.id))
            ∧ (∀ newP, o.scrape e.id = Option.some newP →
                providers_changed (e.providers.getD []) newP = true →
                o.commitOk i = false →
                (update_models_with_providers loadResult o).log[i]?
                  = Option.some (LogEvent.saveError e.id)))) := by
  cases loadResult with
  | none =>
    refine ⟨by simp [update_models_with_providers], fun _ => ⟨rfl, rfl⟩, ?_⟩
    intro c hc
    exact absurd hc (by simp)
  | some c =>
    refine ⟨by simp [update_models_with_providers], by simp, ?_⟩
    intro c' hc'
    obtain rfl : c = c' := by injection hc'
    refine ⟨rfl, ⟨⟨(runEntries o 0 c.data).map Prod.fst⟩, rfl, by
      simp [runEntries_length]⟩, ?_⟩
    intro i e hget
    have hlog : (update_models_with_providers (Option.some c) o).log[i]?
        = Option.some ((processEntry o i e).2) := by
      show ((runEntries o 0 c.data).map Prod.snd)[i]? = _
      rw [List.getElem?_map, runEntries_get? o c.data 0 i, hget]
      simp
    constructor
    · intro hscrape
      rw [hlog]
      simp [processEntry, hscrape]
    · intro newP hscrape hchanged hcommit
      rw [hlog]
      simp [processEntry, hscrape, hchanged, hcommit]

/-- Witness for C1 at a concrete input: a one-entry catalog whose only
scrape raises; the failure is logged for that entry. -/
theorem update_exit_nonzero_iff_catalog_unreadable_witness :
    (update_models_with_providers (Option.some ⟨[⟨"m", Option.none, []⟩]⟩)
        ⟨fun _ => Option.none, fun _ => false⟩).log[0]?
      = Option.some (LogEvent.scrapeError "m") :=
  (((update_exit_nonzero_iff_catalog_unreadable
        (Option.some ⟨[⟨"m", Option.none, []⟩]⟩)
        ⟨fun _ => Option.none, fun _ => false⟩).2.2
      ⟨[⟨"m", Option.none, []⟩]⟩ rfl).2.2
    0 ⟨"m", Option.none, []⟩ rfl).1 rfl

/-- C3: when the commit for one model fails, the failure is logged, the
in-memory entry keeps the new uncommitted snapshot to the end of the run,
and the run still completes over every entry with exit status zero. -/
theorem commit_failure_keeps_new_value (c : Catalog) (o : Oracle) (i : Nat)
    (e : ModelEntry) (newP : List Provider)
    (hget : c.data[i]? = Option.some e)
    (hscrape : o.scrape e.id = Option.some newP)
    (hchanged : providers_changed (e.providers.getD []) newP = true)
    (hcommit : o.commitOk i = false) :
    (update_models_with_providers (Option.some c) o).exitCode = 0
    ∧ (∃ c', (update_models_with_providers (Option.some c) o).final = Option.some c'
        ∧ c'.data[i]? = Option.some { e with providers := Option.some newP }
        ∧ c'.data.length = c.data.length)
    ∧ (update_models_with_providers (Option.some c) o).log[i]?
        = Option.some (LogEvent.saveError e.id) := by
  refine ⟨rfl, ⟨⟨(runEntries o 0 c.data).map Prod.fst⟩, rfl, ?_, by
    simp [runEntries_length]⟩, ?_⟩
  · show ((runEntries o 0 c.data).map Prod.fst)[i]? = _
    rw [List.getElem?_map, runEntries_get? o c.data 0 i, hget]
    simp [processEntry, hscrape, hchanged, hcommit]
  · show ((runEntries o 0 c.data).map Prod.snd)[i]? = _
    rw [List.getElem?_map, runEntries_get? o c.data 0 i, hget]
    simp [processEntry, hscrape, hchanged, hcommit]

/-- Witness for C3 at a concrete input: a one-entry catalog with no
stored snapshot, a scrape returning the sentinel snapshot, and a failing
commit. -/
theorem commit_failure_keeps_new_value_witness :
    (update_models_with_providers (Option.some ⟨[⟨"m", Option.none, []⟩]⟩)
        ⟨fun _ => Option.some [sentinelProvider], fun _ => false⟩).log[0]?
      = Option.some (LogEvent.saveError "m") :=
  (commit_failure_keeps_new_value ⟨[⟨"m", Option.none, []⟩]⟩
    ⟨fun _ => Option.some [sentinelProvider], fun _ => false⟩ 0
    ⟨"m", Option.none, []⟩ [sentinelProvider] rfl rfl (by decide) rfl).2.2

/-- C4: the driver never alters the set or order of catalog entries, and
every part of an entry other than its `providers` key is preserved
verbatim. -/
theorem update_preserves_model_entries (c : Catalog) (o : Oracle) :
    ∃ c', (update_models_with_providers (Option.some c) o).final = Option.some c'
      ∧ c'.data.map entryShape = c.data.map entryShape :=
  ⟨⟨(runEntries o 0 c.data).map Prod.fst⟩, rfl, runEntries_map_fst_shape o 0 c.data⟩

/-- C2 (refuting atomicity of the commit): the source rewrites
`models.json` in place through `open` with mode `w`, so a write failing
after three characters leaves the file holding "NEW" — a strict prefix of
the new serialization that is neither the previous content nor the new
content. -/
theorem commit_disk_content_not_atomic :
    commit_disk_content "OLD CATALOG" "NEW CATALOG CONTENT" 3 = "NEW"
    ∧ commit_disk_content "OLD CATALOG" "NEW CATALOG CONTENT" 3 ≠ "OLD CATALOG"
    ∧ commit_disk_content "OLD CATALOG" "NEW CATALOG CONTENT" 3 ≠ "NEW CATALOG CONTENT" :=
  ⟨by decide, by decide, by decide⟩

end ScrapeProviders
